import Mathlib

/-!
Shallow embedding of the `bitlocker_drive_interface` package
(`bitlocker_drive.py` and `utilities/utilities.py`), together with theorems
about its lock/unlock state-guard and command-dispatch logic.

Modelling choices:
* Filesystem paths are `String`s; Python's `f"{path}"` on a path is the
  identity on that string.
* The mount inspector (`os.path.ismount` and `Path.exists`) is a pair of
  boolean-valued functions on paths, supplied as an explicit argument.
* The external executor (`asyncio.create_subprocess_exec` plus
  `process.communicate`) is a function from an argument list to an exit
  status with captured stdout/stderr, supplied as an explicit argument.
* Python exceptions become `Except`; since an exception escaping a method
  leaves the object in whatever state the statements executed so far
  produced, each method returns its `Except` outcome together with the
  post-state of the object.
* `logger.error` calls are collected in a trace; each invocation of the
  executor (a dispatched command) is likewise recorded in the trace.
  `logger.info` calls and `print_output` console printing have no effect
  on the data model and are not recorded.
-/

namespace BitlockerInterface

/-- The mount inspector: `ismount p` models `os.path.ismount(p)` and
`path_exists p` models `Path(p).exists()`. -/
structure MountInspector where
  ismount : String → Bool
  path_exists : String → Bool

/-- `utilities.is_mounted`: `os.path.ismount(path) and path.exists()`. -/
def is_mounted (mi : MountInspector) (path : String) : Bool :=
  mi.ismount path && mi.path_exists path

/-- Outcome of running one external process: exit status and the captured
stdout/stderr streams (decoded to strings). -/
structure ExecResult where
  returncode : Int
  stdout : String
  stderr : String

/-- The external executor collaborator: runs an argument list and reports
its `ExecResult`. -/
def Executor : Type := List String → ExecResult

/-- Python `RuntimeError`, carrying its message string. -/
structure RuntimeError where
  msg : String
deriving DecidableEq, Repr

/-- Python `repr` of a string, as used when a list of strings is
interpolated into an f-string.  Python quotes with `'` unless the string
contains `'` and no `"`; escaping of characters inside the element is not
modelled, as no command element built by this package contains both quote
kinds or a backslash. -/
def pyStrRepr (s : String) : String :=
  if s.any (fun c => c = '\'') && !s.any (fun c => c = '"') then
    "\"" ++ s ++ "\""
  else
    "'" ++ s ++ "'"

/-- Python `str` of a list of strings (`f"{command}"`). -/
def pyListRepr (xs : List String) : String :=
  "[" ++ String.intercalate ", " (xs.map pyStrRepr) ++ "]"

/-- `utilities.run_command`: runs the command through the executor and
raises `RuntimeError` with the command and captured stderr when the exit
status is non-zero.  (`print_output` only prints to the console and is not
modelled.) -/
def run_command (execute : Executor) (command : List String) :
    Except RuntimeError Unit :=
  let r := execute command
  if r.returncode ≠ 0 then
    .error ⟨"Command failed: " ++ pyListRepr command ++ "\n" ++ r.stderr⟩
  else
    .ok ()

/-- The typed failures `prepare_unlock_subprocess` / `prepare_lock_subprocess`
raise: Python's builtin `FileNotFoundError` and the package's
`AlreadyUnlockedError` / `AlreadyLockedError` from `utilities/exceptions.py`. -/
inductive PrepareError where
  | FileNotFoundError (msg : String)
  | AlreadyUnlockedError (msg : String)
  | AlreadyLockedError (msg : String)
deriving DecidableEq, Repr

/-- The `BitlockerDrive` object: the two paths fixed at construction and
the two cached most-recently-built commands. -/
structure BitlockerDrive where
  powershell_executable_path : String
  mount_point : String
  subprocess_unlock_command : Option (List String)
  subprocess_lock_command : Option (List String)
deriving DecidableEq, Repr

/-- `BitlockerDrive.__init__`: both cached commands start as `None`. -/
def BitlockerDrive.make (powershell_executable_path mount_point : String) :
    BitlockerDrive :=
  ⟨powershell_executable_path, mount_point, none, none⟩

/-- The third element of the unlock command: the Python f-string literal
(its backslash line continuation contributes the 16 spaces of the
continuation line's indentation). -/
def unlockCommandText (password mount_point : String) : String :=
  "$securePassword = ConvertTo-SecureString -String \"" ++ password ++
    "\" -AsPlainText -Force; " ++ "                " ++
    "Unlock-BitLocker -MountPoint \"" ++ mount_point ++
    "\" -Password $securePassword"

/-- The unlock command list built by `prepare_unlock_subprocess`. -/
def builtUnlockCommand (self : BitlockerDrive) (password : String) :
    List String :=
  [self.powershell_executable_path, "-Command",
   unlockCommandText password self.mount_point]

/-- `BitlockerDrive.prepare_unlock_subprocess`.  Returns the raised
exception or the returned command, paired with the post-state of the
object (the cached command assignment happens only after both checks
pass; `return self.subprocess_unlock_command` returns the field just
assigned, i.e. the built command). -/
def prepare_unlock_subprocess (mi : MountInspector) (self : BitlockerDrive)
    (password : String) :
    Except PrepareError (List String) × BitlockerDrive :=
  if !(mi.ismount self.mount_point) then
    (.error (.FileNotFoundError
      ("Mount point at " ++ self.mount_point ++ " not found.")), self)
  else if is_mounted mi self.mount_point then
    (.error (.AlreadyUnlockedError
      ("Mount point at " ++ self.mount_point ++ " is already mounted.")), self)
  else
    let command := builtUnlockCommand self password
    (.ok command, { self with subprocess_unlock_command := some command })

/-- The third element of the lock command. -/
def lockCommandText (mount_point : String) : String :=
  "Lock-BitLocker -MountPoint \"" ++ mount_point ++ "\" -ForceDismount"

/-- The lock command list built by `prepare_lock_subprocess`. -/
def builtLockCommand (self : BitlockerDrive) : List String :=
  [self.powershell_executable_path, "-Command",
   lockCommandText self.mount_point]

/-- `BitlockerDrive.prepare_lock_subprocess`. -/
def prepare_lock_subprocess (mi : MountInspector) (self : BitlockerDrive) :
    Except PrepareError (List String) × BitlockerDrive :=
  if !(mi.ismount self.mount_point) then
    (.error (.FileNotFoundError
      ("Mount point at " ++ self.mount_point ++ " not found.")), self)
  else if !(is_mounted mi self.mount_point) then
    (.error (.AlreadyLockedError
      ("Mount point at " ++ self.mount_point ++ " is already dismounted")), self)
  else
    let command := builtLockCommand self
    (.ok command, { self with subprocess_lock_command := some command })

/-- Observable trace of one controller call: every command handed to the
executor, and every message passed to `logger.error`. -/
structure CallTrace where
  dispatched : List (List String)
  loggedErrors : List String
deriving DecidableEq, Repr

/-- `BitlockerDrive.unlock`: calls `prepare_unlock_subprocess` (whose
exceptions propagate), then awaits `run_command` on the freshly cached
command, catching `RuntimeError` and logging it with `logger.error`. -/
def unlock (mi : MountInspector) (execute : Executor) (self : BitlockerDrive)
    (password : String) :
    Except PrepareError Unit × BitlockerDrive × CallTrace :=
  match prepare_unlock_subprocess mi self password with
  | (.error e, self') => (.error e, self', ⟨[], []⟩)
  | (.ok command, self') =>
    match run_command execute command with
    | .error e =>
      (.ok (), self', ⟨[command], ["Error running unlock command: " ++ e.msg]⟩)
    | .ok _ => (.ok (), self', ⟨[command], []⟩)

/-- `BitlockerDrive.lock`: calls `prepare_lock_subprocess` (whose
exceptions propagate), then awaits `run_command` on the freshly cached
command, catching `RuntimeError` and logging it with `logger.error`. -/
def lock (mi : MountInspector) (execute : Executor) (self : BitlockerDrive) :
    Except PrepareError Unit × BitlockerDrive × CallTrace :=
  match prepare_lock_subprocess mi self with
  | (.error e, self') => (.error e, self', ⟨[], []⟩)
  | (.ok command, self') =>
    match run_command execute command with
    | .error e =>
      (.ok (), self', ⟨[command], ["Error running lock command: " ++ e.msg]⟩)
    | .ok _ => (.ok (), self', ⟨[command], []⟩)

/-- After a successful `prepare_unlock_subprocess`, the cached field holds
exactly the returned command (so `unlock` passing the field to
`run_command` passes the returned command). -/
theorem prepare_unlock_cache (mi : MountInspector) (self : BitlockerDrive)
    (password : String) (c : List String)
    (h : (prepare_unlock_subprocess mi self password).1 = .ok c) :
    (prepare_unlock_subprocess mi self password).2.subprocess_unlock_command
      = some c := by
  unfold prepare_unlock_subprocess at *
  split at h
  · exact absurd h (by simp)
  · split at h
    · exact absurd h (by simp)
    · simp_all

/-- After a successful `prepare_lock_subprocess`, the cached field holds
exactly the returned command. -/
theorem prepare_lock_cache (mi : MountInspector) (self : BitlockerDrive)
    (c : List String)
    (h : (prepare_lock_subprocess mi self).1 = .ok c) :
    (prepare_lock_subprocess mi self).2.subprocess_lock_command = some c := by
  unfold prepare_lock_subprocess at *
  split at h
  · exact absurd h (by simp)
  · split at h
    · exact absurd h (by simp)
    · simp_all

/-! Concrete fixtures used by witnesses and counterexamples. -/

/-- A drive at mount point `/vol` with a fresh (just-constructed) state. -/
def dEx : BitlockerDrive := BitlockerDrive.make "powershell.exe" "/vol"

/-- A drive at the same paths as `dEx` but with both commands cached. -/
def dEx2 : BitlockerDrive :=
  ⟨"powershell.exe", "/vol", some ["cached"], some ["cached"]⟩

/-- Inspector observing: no path is a mount point. -/
def miAbsent : MountInspector := ⟨fun _ => false, fun _ => false⟩

/-- Inspector observing: every path is a mount point but inaccessible
(the locked state). -/
def miLocked : MountInspector := ⟨fun _ => true, fun _ => false⟩

/-- Inspector observing: every path is a mount point and accessible
(the unlocked state). -/
def miUnlocked : MountInspector := ⟨fun _ => true, fun _ => true⟩

/-- An executor that always fails with exit status 1 and stderr
`access denied`. -/
def execDenied : Executor := fun _ => ⟨1, "", "access denied"⟩

/-- An executor that always succeeds with exit status 0. -/
def execOk : Executor := fun _ => ⟨0, "", ""⟩

/-! Helper characterizations of the two builders. -/

/-- A successful `prepare_unlock_subprocess` happens exactly in the
locked state, returns the built unlock command, and its only state change
is caching that command. -/
theorem prepare_unlock_ok (mi : MountInspector) (d : BitlockerDrive)
    (pw : String) (c : List String)
    (h : (prepare_unlock_subprocess mi d pw).1 = .ok c) :
    c = builtUnlockCommand d pw
    ∧ (prepare_unlock_subprocess mi d pw).2
        = { d with subprocess_unlock_command := some c }
    ∧ mi.ismount d.mount_point = true
    ∧ is_mounted mi d.mount_point = false := by
  cases hb : mi.ismount d.mount_point with
  | false => simp [prepare_unlock_subprocess, hb] at h
  | true =>
    cases hm : is_mounted mi d.mount_point with
    | true => simp [prepare_unlock_subprocess, hb, hm] at h
    | false =>
      simp [prepare_unlock_subprocess, hb, hm] at h
      subst h
      simp [prepare_unlock_subprocess, hb, hm]

/-- A failing `prepare_unlock_subprocess` leaves the object untouched. -/
theorem prepare_unlock_error (mi : MountInspector) (d : BitlockerDrive)
    (pw : String) (e : PrepareError)
    (h : (prepare_unlock_subprocess mi d pw).1 = .error e) :
    (prepare_unlock_subprocess mi d pw).2 = d := by
  cases hb : mi.ismount d.mount_point with
  | false => simp [prepare_unlock_subprocess, hb]
  | true =>
    cases hm : is_mounted mi d.mount_point with
    | true => simp [prepare_unlock_subprocess, hb, hm]
    | false => simp [prepare_unlock_subprocess, hb, hm] at h

/-- A successful `prepare_lock_subprocess` happens exactly in the
unlocked state, returns the built lock command, and its only state change
is caching that command. -/
theorem prepare_lock_ok (mi : MountInspector) (d : BitlockerDrive)
    (c : List String)
    (h : (prepare_lock_subprocess mi d).1 = .ok c) :
    c = builtLockCommand d
    ∧ (prepare_lock_subprocess mi d).2
        = { d with subprocess_lock_command := some c }
    ∧ mi.ismount d.mount_point = true
    ∧ is_mounted mi d.mount_point = true := by
  cases hb : mi.ismount d.mount_point with
  | false => simp [prepare_lock_subprocess, hb] at h
  | true =>
    cases hm : is_mounted mi d.mount_point with
    | false => simp [prepare_lock_subprocess, hb, hm] at h
    | true =>
      simp [prepare_lock_subprocess, hb, hm] at h
      subst h
      simp [prepare_lock_subprocess, hb, hm]

/-- A failing `prepare_lock_subprocess` leaves the object untouched. -/
theorem prepare_lock_error (mi : MountInspector) (d : BitlockerDrive)
    (e : PrepareError)
    (h : (prepare_lock_subprocess mi d).1 = .error e) :
    (prepare_lock_subprocess mi d).2 = d := by
  cases hb : mi.ismount d.mount_point with
  | false => simp [prepare_lock_subprocess, hb]
  | true =>
    cases hm : is_mounted mi d.mount_point with
    | false => simp [prepare_lock_subprocess, hb, hm]
    | true => simp [prepare_lock_subprocess, hb, hm] at h

/-- The object state after `unlock` is exactly the state left by its
`prepare_unlock_subprocess` call (the executor phase never writes). -/
theorem unlock_drive (mi : MountInspector) (execute : Executor)
    (d : BitlockerDrive) (pw : String) :
    (unlock mi execute d pw).2.1 = (prepare_unlock_subprocess mi d pw).2 := by
  rcases h : prepare_unlock_subprocess mi d pw with ⟨r, d'⟩
  cases r with
  | error e => simp [unlock, h]
  | ok c =>
    cases hr : run_command execute c with
    | error e => simp [unlock, h, hr]
    | ok u => simp [unlock, h, hr]

/-- The object state after `lock` is exactly the state left by its
`prepare_lock_subprocess` call. -/
theorem lock_drive (mi : MountInspector) (execute : Executor)
    (d : BitlockerDrive) :
    (lock mi execute d).2.1 = (prepare_lock_subprocess mi d).2 := by
  rcases h : prepare_lock_subprocess mi d with ⟨r, d'⟩
  cases r with
  | error e => simp [lock, h]
  | ok c =>
    cases hr : run_command execute c with
    | error e => simp [lock, h, hr]
    | ok u => simp [lock, h, hr]

/-- `prepare_unlock_subprocess` never changes the two construction-time
paths nor the cached lock command, whatever the observed mount state. -/
theorem prepare_unlock_fields (mi : MountInspector) (d : BitlockerDrive)
    (pw : String) :
    (prepare_unlock_subprocess mi d pw).2.powershell_executable_path
        = d.powershell_executable_path
    ∧ (prepare_unlock_subprocess mi d pw).2.mount_point = d.mount_point
    ∧ (prepare_unlock_subprocess mi d pw).2.subprocess_lock_command
        = d.subprocess_lock_command := by
  cases hb : mi.ismount d.mount_point with
  | false => simp [prepare_unlock_subprocess, hb]
  | true =>
    cases hm : is_mounted mi d.mount_point with
    | true => simp [prepare_unlock_subprocess, hb, hm]
    | false => simp [prepare_unlock_subprocess, hb, hm]

/-- `prepare_lock_subprocess` never changes the two construction-time
paths nor the cached unlock command, whatever the observed mount state. -/
theorem prepare_lock_fields (mi : MountInspector) (d : BitlockerDrive) :
    (prepare_lock_subprocess mi d).2.powershell_executable_path
        = d.powershell_executable_path
    ∧ (prepare_lock_subprocess mi d).2.mount_point = d.mount_point
    ∧ (prepare_lock_subprocess mi d).2.subprocess_unlock_command
        = d.subprocess_unlock_command := by
  cases hb : mi.ismount d.mount_point with
  | false => simp [prepare_lock_subprocess, hb]
  | true =>
    cases hm : is_mounted mi d.mount_point with
    | true => simp [prepare_lock_subprocess, hb, hm]
    | false => simp [prepare_lock_subprocess, hb, hm]

/-! Claim theorems. -/

/-- C9: `powershell_executable_path` and `mount_point` as set at
construction are never modified by `prepare_unlock_subprocess`,
`prepare_lock_subprocess`, `unlock`, or `lock`, whatever the password,
the observed mount state, or the executor outcome. -/
theorem C9_immutable_identity (mi : MountInspector) (execute : Executor)
    (d : BitlockerDrive) (pw : String) :
    ((prepare_unlock_subprocess mi d pw).2.powershell_executable_path
        = d.powershell_executable_path
      ∧ (prepare_unlock_subprocess mi d pw).2.mount_point = d.mount_point)
    ∧ ((prepare_lock_subprocess mi d).2.powershell_executable_path
        = d.powershell_executable_path
      ∧ (prepare_lock_subprocess mi d).2.mount_point = d.mount_point)
    ∧ ((unlock mi execute d pw).2.1.powershell_executable_path
        = d.powershell_executable_path
      ∧ (unlock mi execute d pw).2.1.mount_point = d.mount_point)
    ∧ ((lock mi execute d).2.1.powershell_executable_path
        = d.powershell_executable_path
      ∧ (lock mi execute d).2.1.mount_point = d.mount_point) := by
  have hu := prepare_unlock_fields mi d pw
  have hl := prepare_lock_fields mi d
  refine ⟨⟨hu.1, hu.2.1⟩, ⟨hl.1, hl.2.1⟩, ?_, ?_⟩
  · rw [unlock_drive]
    exact ⟨hu.1, hu.2.1⟩
  · rw [lock_drive]
    exact ⟨hl.1, hl.2.1⟩

/-- C3: when the requested transition is not legal for the observed mount
state (unlock is legal only from the locked state, lock only from the
unlocked state), `unlock`/`lock` return a typed error, dispatch no command
to the executor, and their outcome does not depend on the executor at all
(it is never invoked). -/
theorem C3_no_dispatch_on_precondition (mi1 mi2 : MountInspector)
    (execute1 execute2 : Executor) (d : BitlockerDrive) (pw : String)
    (h1 : ¬(mi1.ismount d.mount_point = true
            ∧ is_mounted mi1 d.mount_point = false))
    (h2 : ¬(mi2.ismount d.mount_point = true
            ∧ is_mounted mi2 d.mount_point = true)) :
    ((∃ e, (unlock mi1 execute1 d pw).1 = .error e)
      ∧ (unlock mi1 execute1 d pw).2.2.dispatched = []
      ∧ ∀ execute' : Executor,
          unlock mi1 execute' d pw = unlock mi1 execute1 d pw)
    ∧ ((∃ e, (lock mi2 execute2 d).1 = .error e)
      ∧ (lock mi2 execute2 d).2.2.dispatched = []
      ∧ ∀ execute' : Executor,
          lock mi2 execute' d = lock mi2 execute2 d) := by
  constructor
  · have hp : ∃ e, prepare_unlock_subprocess mi1 d pw = (.error e, d) := by
      cases hb : mi1.ismount d.mount_point with
      | false =>
        exact ⟨.FileNotFoundError
          ("Mount point at " ++ d.mount_point ++ " not found."),
          by simp [prepare_unlock_subprocess, hb]⟩
      | true =>
        cases hm : is_mounted mi1 d.mount_point with
        | false => exact absurd ⟨hb, hm⟩ h1
        | true =>
          exact ⟨.AlreadyUnlockedError
            ("Mount point at " ++ d.mount_point ++ " is already mounted."),
            by simp [prepare_unlock_subprocess, hb, hm]⟩
    rcases hp with ⟨e, hp⟩
    refine ⟨⟨e, ?_⟩, ?_, fun ex => ?_⟩ <;> simp [unlock, hp]
  · have hp : ∃ e, prepare_lock_subprocess mi2 d = (.error e, d) := by
      cases hb : mi2.ismount d.mount_point with
      | false =>
        exact ⟨.FileNotFoundError
          ("Mount point at " ++ d.mount_point ++ " not found."),
          by simp [prepare_lock_subprocess, hb]⟩
      | true =>
        cases hm : is_mounted mi2 d.mount_point with
        | true => exact absurd ⟨hb, hm⟩ h2
        | false =>
          exact ⟨.AlreadyLockedError
            ("Mount point at " ++ d.mount_point ++ " is already dismounted"),
            by simp [prepare_lock_subprocess, hb, hm]⟩
    rcases hp with ⟨e, hp⟩
    refine ⟨⟨e, ?_⟩, ?_, fun ex => ?_⟩ <;> simp [lock, hp]

/-- C3 witness: on a non-mount path, both operations error and dispatch
nothing, at concrete inputs. -/
theorem C3_witness :
    (unlock miAbsent execOk dEx "pw").1
      = .error (.FileNotFoundError
          ("Mount point at " ++ dEx.mount_point ++ " not found."))
    ∧ (unlock miAbsent execOk dEx "pw").2.2.dispatched = []
    ∧ (lock miAbsent execOk dEx).1
      = .error (.FileNotFoundError
          ("Mount point at " ++ dEx.mount_point ++ " not found."))
    ∧ (lock miAbsent execOk dEx).2.2.dispatched = [] := by
  have h := C3_no_dispatch_on_precondition miAbsent miAbsent execOk execOk
    dEx "pw" (by decide) (by decide)
  exact ⟨rfl, h.1.2.1, rfl, h.2.2.1⟩

/-- C6: whenever the preconditions hold (mount point present, volume
locked), `prepare_unlock_subprocess` returns the command that invokes the
executable with a `-Command` argument converting the password to a secure
string and requesting `Unlock-BitLocker` on the mount point; the password
and the mount-point path appear verbatim as substrings of that argument
(the explicit concatenation below exhibits them). -/
theorem C6_unlock_command_content (mi : MountInspector) (d : BitlockerDrive)
    (pw : String)
    (h1 : mi.ismount d.mount_point = true)
    (h2 : is_mounted mi d.mount_point = false) :
    (prepare_unlock_subprocess mi d pw).1
      = .ok [d.powershell_executable_path, "-Command",
          "$securePassword = ConvertTo-SecureString -String \"" ++ pw ++
            "\" -AsPlainText -Force; " ++ "                " ++
            "Unlock-BitLocker -MountPoint \"" ++ d.mount_point ++
            "\" -Password $securePassword"] := by
  simp [prepare_unlock_subprocess, h1, h2, builtUnlockCommand,
    unlockCommandText]

/-- C6 witness: the unlock command built for password `pw` at `/vol`. -/
theorem C6_witness :
    (prepare_unlock_subprocess miLocked dEx "pw").1
      = .ok [dEx.powershell_executable_path, "-Command",
          "$securePassword = ConvertTo-SecureString -String \"" ++ "pw" ++
            "\" -AsPlainText -Force; " ++ "                " ++
            "Unlock-BitLocker -MountPoint \"" ++ dEx.mount_point ++
            "\" -Password $securePassword"] :=
  C6_unlock_command_content miLocked dEx "pw" rfl rfl

/-- C7: whenever the preconditions hold (mount point present, volume
unlocked), `prepare_lock_subprocess` returns the command that invokes the
executable with a `-Command` argument requesting a forced dismount
(`Lock-BitLocker ... -ForceDismount`) of the literal mount-point path; the
command involves no password: it is determined by the executable path and
mount point alone. -/
theorem C7_lock_command_content (mi : MountInspector) (d : BitlockerDrive)
    (h1 : mi.ismount d.mount_point = true)
    (h2 : is_mounted mi d.mount_point = true) :
    (prepare_lock_subprocess mi d).1
      = .ok [d.powershell_executable_path, "-Command",
          "Lock-BitLocker -MountPoint \"" ++ d.mount_point ++
            "\" -ForceDismount"]
    ∧ ∀ d2 : BitlockerDrive,
        d2.powershell_executable_path = d.powershell_executable_path →
        d2.mount_point = d.mount_point →
        (prepare_lock_subprocess mi d2).1 = (prepare_lock_subprocess mi d).1 := by
  constructor
  · simp [prepare_lock_subprocess, h1, h2, builtLockCommand, lockCommandText]
  · intro d2 he hm
    simp [prepare_lock_subprocess, he, hm, h1, h2, builtLockCommand,
      lockCommandText]

/-- C7 witness: the lock command built at `/vol`, and its independence of
everything but the two construction-time paths, at concrete inputs. -/
theorem C7_witness :
    (prepare_lock_subprocess miUnlocked dEx).1
      = .ok [dEx.powershell_executable_path, "-Command",
          "Lock-BitLocker -MountPoint \"" ++ dEx.mount_point ++
            "\" -ForceDismount"]
    ∧ (prepare_lock_subprocess miUnlocked dEx2).1
      = (prepare_lock_subprocess miUnlocked dEx).1 := by
  have h := C7_lock_command_content miUnlocked dEx rfl rfl
  exact ⟨h.1, h.2 dEx2 rfl rfl⟩

/-- C4: for every password, when the mount point is not a filesystem mount
point, `prepare_unlock_subprocess` fails with the not-found error
regardless of the password value and regardless of the accessibility
observation (the existence check is performed first, so it wins); when the
mount point is a mount point and the volume is observed unlocked
(`is_mounted`), it fails with `AlreadyUnlockedError`. -/
theorem C4_unlock_preconditions (mi1 mi2 : MountInspector)
    (d : BitlockerDrive) (pw1 pw2 : String)
    (h1 : mi1.ismount d.mount_point = false)
    (h2 : mi2.ismount d.mount_point = true)
    (h3 : is_mounted mi2 d.mount_point = true) :
    (prepare_unlock_subprocess mi1 d pw1).1
      = .error (.FileNotFoundError
          ("Mount point at " ++ d.mount_point ++ " not found."))
    ∧ (prepare_unlock_subprocess mi2 d pw2).1
      = .error (.AlreadyUnlockedError
          ("Mount point at " ++ d.mount_point ++ " is already mounted.")) := by
  constructor
  · simp [prepare_unlock_subprocess, h1]
  · simp [prepare_unlock_subprocess, h2, h3]

/-- C4 witness: the not-found case on a non-mount path and the
already-unlocked case on a mounted accessible path, at concrete inputs. -/
theorem C4_witness :
    miAbsent.ismount dEx.mount_point = false
    ∧ miUnlocked.ismount dEx.mount_point = true
    ∧ is_mounted miUnlocked dEx.mount_point = true
    ∧ ((prepare_unlock_subprocess miAbsent dEx "pw").1
        = .error (.FileNotFoundError
            ("Mount point at " ++ dEx.mount_point ++ " not found."))
      ∧ (prepare_unlock_subprocess miUnlocked dEx "other").1
        = .error (.AlreadyUnlockedError
            ("Mount point at " ++ dEx.mount_point ++ " is already mounted."))) :=
  ⟨rfl, rfl, rfl, C4_unlock_preconditions miAbsent miUnlocked dEx "pw" "other" rfl rfl rfl⟩

/-- C5: when the mount point is not a filesystem mount point,
`prepare_lock_subprocess` fails with the not-found error regardless of the
accessibility observation (existence is checked first); when the mount
point is a mount point but the volume is not observed unlocked, it fails
with `AlreadyLockedError`. -/
theorem C5_lock_preconditions (mi1 mi2 : MountInspector) (d : BitlockerDrive)
    (h1 : mi1.ismount d.mount_point = false)
    (h2 : mi2.ismount d.mount_point = true)
    (h3 : is_mounted mi2 d.mount_point = false) :
    (prepare_lock_subprocess mi1 d).1
      = .error (.FileNotFoundError
          ("Mount point at " ++ d.mount_point ++ " not found."))
    ∧ (prepare_lock_subprocess mi2 d).1
      = .error (.AlreadyLockedError
          ("Mount point at " ++ d.mount_point ++ " is already dismounted")) := by
  constructor
  · simp [prepare_lock_subprocess, h1]
  · simp [prepare_lock_subprocess, h2, h3]

/-- C5 witness: the not-found case on a non-mount path and the
already-locked case on a mounted inaccessible path, at concrete inputs. -/
theorem C5_witness :
    miAbsent.ismount dEx.mount_point = false
    ∧ miLocked.ismount dEx.mount_point = true
    ∧ is_mounted miLocked dEx.mount_point = false
    ∧ ((prepare_lock_subprocess miAbsent dEx).1
        = .error (.FileNotFoundError
            ("Mount point at " ++ dEx.mount_point ++ " not found."))
      ∧ (prepare_lock_subprocess miLocked dEx).1
        = .error (.AlreadyLockedError
            ("Mount point at " ++ dEx.mount_point ++ " is already dismounted"))) :=
  ⟨rfl, rfl, rfl, C5_lock_preconditions miAbsent miLocked dEx rfl rfl rfl⟩

/-- C10: when `prepare_unlock_subprocess` or `prepare_lock_subprocess`
fails a precondition check, the whole object — in particular both cached
command fields — is exactly as it was before the call: the exception is
raised before any field assignment. -/
theorem C10_no_mutation_on_error (mi1 mi2 : MountInspector)
    (d : BitlockerDrive) (pw : String) (e1 e2 : PrepareError)
    (h1 : (prepare_unlock_subprocess mi1 d pw).1 = .error e1)
    (h2 : (prepare_lock_subprocess mi2 d).1 = .error e2) :
    (prepare_unlock_subprocess mi1 d pw).2 = d
    ∧ (prepare_lock_subprocess mi2 d).2 = d :=
  ⟨prepare_unlock_error mi1 d pw e1 h1, prepare_lock_error mi2 d e2 h2⟩

/-- C10 witness: failing prepare calls on a non-mount path leave the
concrete drive (both cached command fields `none`) unchanged. -/
theorem C10_witness :
    (prepare_unlock_subprocess miAbsent dEx "pw").2 = dEx
    ∧ (prepare_lock_subprocess miAbsent dEx).2 = dEx :=
  C10_no_mutation_on_error miAbsent miAbsent dEx "pw"
    (.FileNotFoundError ("Mount point at " ++ dEx.mount_point ++ " not found."))
    (.FileNotFoundError ("Mount point at " ++ dEx.mount_point ++ " not found."))
    rfl rfl

/-- The unlock command text determines the password: for a fixed mount
point, different passwords give different command text. -/
theorem unlockCommandText_inj (mp p1 p2 : String)
    (h : unlockCommandText p1 mp = unlockCommandText p2 mp) : p1 = p2 := by
  have hd := congrArg String.data h
  simp only [unlockCommandText, String.data_append, List.append_assoc] at hd
  exact String.ext (List.append_cancel_right (List.append_cancel_left hd))

/-- C8: for a fixed drive and observed state under which the build
succeeds, `prepare_unlock_subprocess` is injective in the password: two
different passwords never produce the same command. -/
theorem C8_password_injective (mi : MountInspector) (d : BitlockerDrive)
    (p1 p2 : String) (c1 c2 : List String)
    (h1 : (prepare_unlock_subprocess mi d p1).1 = .ok c1)
    (h2 : (prepare_unlock_subprocess mi d p2).1 = .ok c2)
    (hne : p1 ≠ p2) : c1 ≠ c2 := by
  rcases prepare_unlock_ok mi d p1 c1 h1 with ⟨hc1, -, -, -⟩
  rcases prepare_unlock_ok mi d p2 c2 h2 with ⟨hc2, -, -, -⟩
  subst hc1
  subst hc2
  intro hc
  apply hne
  simp only [builtUnlockCommand, List.cons.injEq, and_true, true_and] at hc
  exact unlockCommandText_inj d.mount_point p1 p2 hc

/-- C8 witness: the commands built for passwords `pw` and `pw2` at the
same drive and observed state differ. -/
theorem C8_witness :
    builtUnlockCommand dEx "pw" ≠ builtUnlockCommand dEx "pw2" :=
  C8_password_injective miLocked dEx "pw" "pw2" _ _ rfl rfl (by decide)

/-- C2 counterexample: a successful `prepare_unlock_subprocess` does have
a side effect beyond returning the command: on the fresh drive `dEx`
(cached field `none`) it changes `subprocess_unlock_command`. -/
theorem C2_counterexample :
    (prepare_unlock_subprocess miLocked dEx "pw").2.subprocess_unlock_command
      ≠ dEx.subprocess_unlock_command := by
  decide

/-- C2 (amended): the builders are pure apart from caching: a successful
call changes exactly the corresponding cached command field, setting it to
the returned command, and leaves `mount_point`,
`powershell_executable_path` and the other cached field unchanged. -/
theorem C2_builder_caches (mi1 mi2 : MountInspector) (d : BitlockerDrive)
    (pw : String) (c1 c2 : List String)
    (h1 : (prepare_unlock_subprocess mi1 d pw).1 = .ok c1)
    (h2 : (prepare_lock_subprocess mi2 d).1 = .ok c2) :
    (prepare_unlock_subprocess mi1 d pw).2
      = { d with subprocess_unlock_command := some c1 }
    ∧ (prepare_lock_subprocess mi2 d).2
      = { d with subprocess_lock_command := some c2 } :=
  ⟨(prepare_unlock_ok mi1 d pw c1 h1).2.1, (prepare_lock_ok mi2 d c2 h2).2.1⟩

/-- C2 witness: the concrete post-states of successful builds on `dEx`. -/
theorem C2_witness :
    (prepare_unlock_subprocess miLocked dEx "pw").2
      = { dEx with subprocess_unlock_command
            := some (builtUnlockCommand dEx "pw") }
    ∧ (prepare_lock_subprocess miUnlocked dEx).2
      = { dEx with subprocess_lock_command := some (builtLockCommand dEx) } :=
  C2_builder_caches miLocked miUnlocked dEx "pw" _ _ rfl rfl

/-- C1 counterexample: in the locked state, with an executor exiting with
status 1 and stderr `access denied`, `unlock` dispatches the command but
reports success (`.ok ()`) to its caller while logging an error message:
the execution failure is logged-and-swallowed, not surfaced. -/
theorem C1_counterexample :
    (execDenied (builtUnlockCommand dEx "pw")).returncode = 1
    ∧ (unlock miLocked execDenied dEx "pw").1 = .ok ()
    ∧ (unlock miLocked execDenied dEx "pw").2.2.dispatched
        = [builtUnlockCommand dEx "pw"]
    ∧ (unlock miLocked execDenied dEx "pw").2.2.loggedErrors ≠ [] := by
  refine ⟨rfl, rfl, rfl, ?_⟩
  decide

/-- C1 (amended): when the executor reports a non-zero exit status for a
dispatched unlock or lock command, `run_command` raises `RuntimeError`
whose message carries the captured stderr, but `unlock`/`lock` catch it,
pass it to `logger.error`, and return normally: the execution failure is
logged-and-swallowed inside the controller, never surfaced to the
immediate caller (only precondition failures propagate). -/
theorem C1_execution_error_swallowed (mi1 mi2 : MountInspector)
    (execute : Executor) (d : BitlockerDrive) (pw : String)
    (hu1 : mi1.ismount d.mount_point = true)
    (hu2 : is_mounted mi1 d.mount_point = false)
    (hu3 : (execute (builtUnlockCommand d pw)).returncode ≠ 0)
    (hl1 : mi2.ismount d.mount_point = true)
    (hl2 : is_mounted mi2 d.mount_point = true)
    (hl3 : (execute (builtLockCommand d)).returncode ≠ 0) :
    unlock mi1 execute d pw
      = (.ok (),
         { d with subprocess_unlock_command
             := some (builtUnlockCommand d pw) },
         ⟨[builtUnlockCommand d pw],
          ["Error running unlock command: " ++ ("Command failed: "
            ++ pyListRepr (builtUnlockCommand d pw) ++ "\n"
            ++ (execute (builtUnlockCommand d pw)).stderr)]⟩)
    ∧ lock mi2 execute d
      = (.ok (),
         { d with subprocess_lock_command := some (builtLockCommand d) },
         ⟨[builtLockCommand d],
          ["Error running lock command: " ++ ("Command failed: "
            ++ pyListRepr (builtLockCommand d) ++ "\n"
            ++ (execute (builtLockCommand d)).stderr)]⟩) := by
  have hpu : prepare_unlock_subprocess mi1 d pw
      = (.ok (builtUnlockCommand d pw),
         { d with subprocess_unlock_command
             := some (builtUnlockCommand d pw) }) := by
    simp [prepare_unlock_subprocess, hu1, hu2]
  have hpl : prepare_lock_subprocess mi2 d
      = (.ok (builtLockCommand d),
         { d with subprocess_lock_command := some (builtLockCommand d) }) := by
    simp [prepare_lock_subprocess, hl1, hl2]
  constructor
  · simp [unlock, hpu, run_command, hu3]
  · simp [lock, hpl, run_command, hl3]

/-- C1 witness: with the failing executor, both calls return `.ok ()` to
the caller and log the error message carrying `access denied`. -/
theorem C1_witness :
    (unlock miLocked execDenied dEx "pw").1 = .ok ()
    ∧ (unlock miLocked execDenied dEx "pw").2.2.loggedErrors
        = ["Error running unlock command: " ++ ("Command failed: "
            ++ pyListRepr (builtUnlockCommand dEx "pw") ++ "\n"
            ++ (execDenied (builtUnlockCommand dEx "pw")).stderr)]
    ∧ (lock miUnlocked execDenied dEx).1 = .ok ()
    ∧ (lock miUnlocked execDenied dEx).2.2.loggedErrors
        = ["Error running lock command: " ++ ("Command failed: "
            ++ pyListRepr (builtLockCommand dEx) ++ "\n"
            ++ (execDenied (builtLockCommand dEx)).stderr)] := by
  have h := C1_execution_error_swallowed miLocked miUnlocked execDenied dEx
    "pw" rfl rfl (by decide) rfl rfl (by decide)
  exact ⟨by rw [h.1], by rw [h.1], by rw [h.2], by rw [h.2]⟩

end BitlockerInterface
